import Mathlib

/-!
Shallow embedding of the authentication/authorization subsystem of the
fpna_cfo_crew_ai repository (backend/core/security.py, backend/models/user.py,
backend/api/auth.py), together with theorems settling the behavioural claims
about it.  Machine strings are Lean `String`s restricted to the ASCII fragment
(Python's `str.isupper`, `str.islower`, `str.isdigit` agree with Lean's
`Char.isUpper`, `Char.isLower`, `Char.isDigit` on ASCII); timestamps are `Int`
seconds since the epoch.
-/

namespace FpnaCfo

/-! Role-based access control, from `backend/core/security.py`, class `Role`
and function `has_permission`. -/

namespace Role

def ADMIN : String := "admin"

def CFO : String := "cfo"

def ANALYST : String := "analyst"

def VIEWER : String := "viewer"

/-- The `ROLE_HIERARCHY` dict (higher index = higher privilege), modelled as an
association list with the dict's insertion order. -/
def ROLE_HIERARCHY : List (String × Int) :=
  [(VIEWER, 0), (ANALYST, 1), (CFO, 2), (ADMIN, 3)]

/-- `Role.all_roles()`. -/
def all_roles : List String := [ADMIN, CFO, ANALYST, VIEWER]

/-- `Role.is_valid_role(role)`: membership in the `ROLE_HIERARCHY` dict. -/
def is_valid_role (role : String) : Bool :=
  (ROLE_HIERARCHY.lookup role).isSome

end Role

/-- `ROLE_HIERARCHY.get(role, -1)`, the rank used by `has_permission`. -/
def roleLevel (role : String) : Int :=
  (Role.ROLE_HIERARCHY.lookup role).getD (-1)

/-- `has_permission(user_role, required_role)` from `backend/core/security.py`:
both roles must be valid, then the user's hierarchy level must be at least the
required level. -/
def has_permission (user_role required_role : String) : Bool :=
  if ¬ Role.is_valid_role user_role then false
  else if ¬ Role.is_valid_role required_role then false
  else decide (roleLevel user_role ≥ roleLevel required_role)

/-! Password strength validation, from `backend/core/security.py`,
`validate_password_strength`. -/

/-- The defined special-character set of `validate_password_strength`. -/
def special_chars : String := "!@#$%^&*()_+-=[]\x7b\x7d|;:,.<>?"

def lengthErrMsg : String := "Password must be at least 8 characters long"

def upperErrMsg : String := "Password must contain at least one uppercase letter"

def lowerErrMsg : String := "Password must contain at least one lowercase letter"

def digitErrMsg : String := "Password must contain at least one digit"

def specialErrMsg : String :=
  "Password must contain at least one special character (!@#$%^&*()_+-=[]\x7b\x7d|;:,.<>?)"

/-- The `errors` list accumulated by `validate_password_strength`, in the
order the source appends them (Python iterates the password's characters;
modelled over the string's character list). -/
def violatedErrors (password : String) : List String :=
  (if password.data.length < 8 then [lengthErrMsg] else []) ++
  (if ¬ password.data.any Char.isUpper then [upperErrMsg] else []) ++
  (if ¬ password.data.any Char.isLower then [lowerErrMsg] else []) ++
  (if ¬ password.data.any Char.isDigit then [digitErrMsg] else []) ++
  (if ¬ password.data.any (fun c => special_chars.data.contains c) then [specialErrMsg] else [])

/-- `validate_password_strength(password)` from `backend/core/security.py`:
empty passwords short-circuit with a dedicated message; otherwise all violated
rules are collected and joined with "; ". -/
def validate_password_strength (password : String) : Bool × String :=
  if password = "" then (false, "Password cannot be empty")
  else
    let errors := violatedErrors password
    if errors ≠ [] then (false, String.intercalate "; " errors)
    else (true, "Password is strong")

/-- All five strength rules hold: length at least 8, an uppercase letter, a
lowercase letter, a digit, and a special character from the defined set. -/
def passwordRulesOk (password : String) : Bool :=
  decide (8 ≤ password.data.length) && password.data.any Char.isUpper &&
    password.data.any Char.isLower && password.data.any Char.isDigit &&
    password.data.any (fun c => special_chars.data.contains c)

/-! Password hashing, from `backend/core/security.py`, `hash_password` and
`verify_password`. -/

/-- Modelled from the spec: the bcrypt hashing backend (passlib's
`CryptContext(schemes=["bcrypt"]).hash/verify`), which is third-party code not
in this repository.  Per the spec, "hash(plaintext) -> hash produces a
self-contained string embedding algorithm identifier, cost factor, and a
freshly generated random salt; verify(plaintext, hash) -> bool recomputes
using the embedded salt/cost and compares".  The hash is modelled as the
embedded salt together with a salt-and-password-determined digest; the salt
is an explicit parameter standing for the fresh randomness drawn at each
call. -/
structure BcryptHash where
  salt : Nat
  digest : String
deriving DecidableEq

/-- Modelled from the spec: the salt/password-determined digest recomputed by
bcrypt verification. -/
def bcryptDigest (salt : Nat) (password : String) : String :=
  toString salt ++ "$" ++ password

/-- `hash_password(password)` from `backend/core/security.py`, with the
bcrypt backend's fresh random salt made an explicit parameter. -/
def hash_password (password : String) (salt : Nat) : BcryptHash :=
  ⟨salt, bcryptDigest salt password⟩

/-- `verify_password(plain_password, hashed_password)` from
`backend/core/security.py`: recompute the digest with the embedded salt and
compare. -/
def verify_password (plain_password : String) (hashed_password : BcryptHash) : Bool :=
  bcryptDigest hashed_password.salt plain_password == hashed_password.digest

/-! JWT tokens, from `backend/core/security.py`: `create_access_token`,
`create_refresh_token`, `decode_token`, `get_user_id_from_token`. -/

def SECRET_KEY : String := "your-secret-key-change-in-production"

def ACCESS_TOKEN_EXPIRE_MINUTES : Int := 30

def REFRESH_TOKEN_EXPIRE_DAYS : Int := 7

/-- The default access-token lifetime, in seconds. -/
def accessTTL : Int := ACCESS_TOKEN_EXPIRE_MINUTES * 60

/-- The refresh-token lifetime, in seconds. -/
def refreshTTL : Int := REFRESH_TOKEN_EXPIRE_DAYS * 24 * 60 * 60

/-- The caller-supplied claims dictionary (`data`).  The `sub` claim is an
arbitrary string (tokens issued by this application carry
`sub = str(user.id)`, but nothing constrains the claim in a decoded token);
`email` and `role` are optional. -/
structure Payload where
  sub : Option String
  email : Option String
  role : Option String
deriving DecidableEq

/-- Modelled from the spec: a token as produced by python-jose's `jwt.encode`
(third-party code not in this repository): the claims dictionary together
with the `exp`, `iat` and `type` claims added by the issuing functions, and
the key it was signed with. -/
structure Token where
  payload : Payload
  exp : Int
  iat : Int
  typ : String
  signKey : String
deriving DecidableEq

/-- The claims returned by a successful decode. -/
structure DecodedClaims where
  payload : Payload
  exp : Int
  iat : Int
  typ : String
deriving DecidableEq

/-- `create_access_token(data, expires_delta)` from `backend/core/security.py`
at issue time `now`: `exp` is `now + expires_delta` when a (truthy, i.e.
nonzero) delta is given, else `now + 30 minutes`; the `type` claim is
`"access"`; the token is signed with `SECRET_KEY`.  (`if expires_delta:` is
Python truthiness, so a zero timedelta also falls back to the default.) -/
def create_access_token (data : Payload) (now : Int) (expires_delta : Option Int) : Token :=
  let expire : Int :=
    match expires_delta with
    | some d => if d = 0 then now + accessTTL else now + d
    | none => now + accessTTL
  { payload := data, exp := expire, iat := now, typ := "access", signKey := SECRET_KEY }

/-- `create_refresh_token(data)` from `backend/core/security.py` at issue time
`now`: `exp = now + 7 days`, `type = "refresh"`, signed with `SECRET_KEY`. -/
def create_refresh_token (data : Payload) (now : Int) : Token :=
  { payload := data, exp := now + refreshTTL, iat := now, typ := "refresh",
    signKey := SECRET_KEY }

/-- `decode_token(token)` from `backend/core/security.py`, evaluated at time
`now`.  Modelled from the spec for the python-jose `jwt.decode` layer it
wraps: decoding "verifies signature and rejects if signature invalid, payload
malformed, or `exp` in the past"; "tokens decode successfully until `exp`;
at/after `exp`, `decode` returns invalid regardless of signature
correctness".  On any such failure the source catches `JWTError` and returns
`None`. -/
def decode_token (token : Token) (now : Int) : Option DecodedClaims :=
  if token.signKey = SECRET_KEY ∧ now < token.exp then
    some ⟨token.payload, token.exp, token.iat, token.typ⟩
  else none

/-- `get_user_id_from_token(token)` from `backend/core/security.py`: decode,
then extract the `sub` claim — an `Optional[str]`, not yet an integer. -/
def get_user_id_from_token (token : Token) (now : Int) : Option String :=
  match decode_token token now with
  | some payload => payload.payload.sub
  | none => none

/-! The `User` model, from `backend/models/user.py`.  A database is a list of
rows in insertion order. -/

structure User where
  id : Nat
  email : String
  username : String
  hashed_password : BcryptHash
  role : String
  is_active : Bool
  is_verified : Bool
  created_at : Int
  last_login : Option Int
  api_key : Option String
deriving DecidableEq

/-- `User.verify_password(plain_password)` from `backend/models/user.py`. -/
def User.verifyPassword (u : User) (plain_password : String) : Bool :=
  verify_password plain_password u.hashed_password

/-! `UserCRUD` operations from `backend/models/user.py`, over the list-of-rows
store. -/

/-- `UserCRUD.get_user_by_email(db, email)`: first row whose email matches. -/
def get_user_by_email (store : List User) (email : String) : Option User :=
  store.find? (fun u => u.email == email)

/-- `UserCRUD.get_user_by_id(db, user_id)`: first row whose id matches. -/
def get_user_by_id (store : List User) (user_id : Nat) : Option User :=
  store.find? (fun u => u.id == user_id)

/-- The next autoincremented primary key. -/
def next_id (store : List User) : Nat :=
  (store.map User.id).foldr max 0 + 1

/-- `UserCRUD.create_user(db, email, username, password, role, is_verified)`:
hashes the password (the bcrypt salt is the explicit `salt` argument), builds
the row with `is_active=True` and a fresh id, and appends it. -/
def create_user (store : List User) (email username password role : String)
    (is_verified : Bool) (salt : Nat) (now : Int) : User × List User :=
  let user : User :=
    { id := next_id store, email := email, username := username,
      hashed_password := hash_password password salt, role := role,
      is_active := true, is_verified := is_verified, created_at := now,
      last_login := none, api_key := none }
  (user, store ++ [user])

/-- The keyword arguments accepted by `UserCRUD.update_user(db, user,
**kwargs)`.  Each constructor but the last names an attribute that exists on
the `User` model (so `hasattr(user, key)` holds); `unknownAttr` stands for
any keyword whose name is not a `User` attribute. -/
inductive FieldAssign where
  | email (v : String)
  | username (v : String)
  | hashedPassword (v : BcryptHash)
  | role (v : String)
  | isActive (v : Bool)
  | isVerified (v : Bool)
  | createdAt (v : Int)
  | lastLogin (v : Option Int)
  | apiKey (v : Option String)
  | uid (v : Nat)
  | unknownAttr (name : String)
deriving DecidableEq

/-- One iteration of the `update_user` loop: `setattr(user, key, value)` when
`hasattr(user, key)`, otherwise skip. -/
def setAttr (u : User) (a : FieldAssign) : User :=
  match a with
  | .email v => { u with email := v }
  | .username v => { u with username := v }
  | .hashedPassword v => { u with hashed_password := v }
  | .role v => { u with role := v }
  | .isActive v => { u with is_active := v }
  | .isVerified v => { u with is_verified := v }
  | .createdAt v => { u with created_at := v }
  | .lastLogin v => { u with last_login := v }
  | .apiKey v => { u with api_key := v }
  | .uid v => { u with id := v }
  | .unknownAttr _ => u

/-- `UserCRUD.update_user(db, user, **kwargs)` from `backend/models/user.py`:
for each keyword argument in order, set the attribute if it exists on the
model. -/
def update_user (u : User) (kwargs : List FieldAssign) : User :=
  kwargs.foldl setAttr u

/-- `UserCRUD.update_last_login(db, user)`: set the row's `last_login` to the
current time (the ORM mutates the row in place; modelled as an id-keyed
update of the store). -/
def update_last_login (store : List User) (user_id : Nat) (now : Int) : List User :=
  store.map (fun u => if u.id = user_id then { u with last_login := some now } else u)

/-- `UserCRUD.deactivate_user(db, user)`: soft delete, setting
`is_active=False` on the row (id-keyed update of the store). -/
def set_inactive (store : List User) (user_id : Nat) : List User :=
  store.map (fun u => if u.id = user_id then { u with is_active := false } else u)

/-! The API layer, from `backend/api/auth.py`. -/

/-- An `HTTPException` as raised by the endpoints: status code and detail
string. -/
structure HTTPErr where
  status_code : Nat
  detail : String
deriving DecidableEq

def invalidCredentialsErr : HTTPErr := ⟨401, "Incorrect email or password"⟩

def inactiveAccountErr : HTTPErr := ⟨401, "Inactive user account"⟩

def invalidAuthErr : HTTPErr := ⟨401, "Invalid authentication credentials"⟩

def userNotFoundAuthErr : HTTPErr := ⟨401, "User not found"⟩

def inactiveUserErr : HTTPErr := ⟨401, "Inactive user"⟩

def invalidRefreshErr : HTTPErr := ⟨401, "Invalid refresh token"⟩

def invalidTypeErr : HTTPErr := ⟨401, "Invalid token type"⟩

def invalidPayloadErr : HTTPErr := ⟨401, "Invalid token payload"⟩

def selfDeactivationErr : HTTPErr := ⟨400, "Cannot deactivate your own account"⟩

def userNotFoundErr : HTTPErr := ⟨404, "User not found"⟩

/-- The numeric value of a decimal digit character. -/
def digitVal (c : Char) : Nat := c.toNat - 48

/-- The digit tail of a Python integer literal: decimal digits optionally
separated by single underscores (PEP 515), accumulating the value. -/
def pyIntTail (acc : Nat) : List Char → Option Nat
  | [] => some acc
  | ['_'] => none
  | '_' :: c :: rest =>
    if c.isDigit then pyIntTail (10 * acc + digitVal c) rest else none
  | c :: rest =>
    if c.isDigit then pyIntTail (10 * acc + digitVal c) rest else none

/-- One or more decimal digits with optional single interior underscores,
starting with a digit. -/
def pyIntDigits : List Char → Option Nat
  | c :: rest => if c.isDigit then pyIntTail (digitVal c) rest else none
  | [] => none

/-- Python's `int(str)` builtin: optional surrounding whitespace, an optional
sign, then one or more decimal digits with optional single interior
underscores; any other string raises `ValueError` (`none` here).  Non-ASCII
digit forms are outside the file's ASCII fragment. -/
def pyInt (s : String) : Option Int :=
  let t := ((s.data.dropWhile Char.isWhitespace).reverse.dropWhile Char.isWhitespace).reverse
  match t with
  | '-' :: rest => (pyIntDigits rest).map (fun n => -(n : Int))
  | '+' :: rest => (pyIntDigits rest).map (fun n => (n : Int))
  | l => (pyIntDigits l).map (fun n => (n : Int))

/-- `db.query(User).filter(User.id == user_id).first()` where `user_id` came
from `int(...)` and so may be negative. -/
def get_user_by_int_id (store : List User) (user_id : Int) : Option User :=
  store.find? (fun u => ((u.id : Int) == user_id))

/-- How a token-consuming request can fail: an `HTTPException` raised by the
endpoint, or an exception the endpoint does not catch — the `ValueError`
from `int(user_id)` on a non-numeric `sub` — which escapes the handler and
surfaces to the client as a generic 500, not a 401. -/
inductive ApiFailure where
  | http (e : HTTPErr)
  | valueError (s : String)
deriving DecidableEq

/-- The `Token` response model: the access/refresh pair returned by `login`
and `refresh_token`. -/
structure TokenPair where
  access_token : Token
  refresh_token : Token
  token_type : String
deriving DecidableEq

/-- The `UserResponse` model: the public user view.  It has no
`hashed_password` and no `api_key` field. -/
structure UserResponse where
  id : Nat
  email : String
  username : String
  role : String
  is_active : Bool
  is_verified : Bool
  created_at : Option Int
  last_login : Option Int
deriving DecidableEq

/-- Serialisation of a `User` row into the `UserResponse` view (pydantic
`orm_mode` field-by-field extraction). -/
def toUserResponse (u : User) : UserResponse :=
  { id := u.id, email := u.email, username := u.username, role := u.role,
    is_active := u.is_active, is_verified := u.is_verified,
    created_at := some u.created_at, last_login := u.last_login }

/-- Python's `str.strip()`: drop whitespace from both ends. -/
def pyStrip (s : String) : String :=
  ⟨((s.data.dropWhile Char.isWhitespace).reverse.dropWhile Char.isWhitespace).reverse⟩

/-- The `UserRegister.validate_username` pydantic validator: non-empty after
stripping, and the stripped value has length between 3 and 50. -/
def usernameOk (v : String) : Bool :=
  !(pyStrip v = "") && decide (3 ≤ (pyStrip v).data.length) &&
    decide ((pyStrip v).data.length ≤ 50)

/-- The `UserRegister.validate_password` pydantic validator: the password
passes `validate_password_strength`. -/
def passwordOk (v : String) : Bool :=
  (validate_password_strength v).1

inductive RegisterError where
  | validationError
  | emailTaken
deriving DecidableEq

/-- The `register` endpoint from `backend/api/auth.py`, together with the
pydantic validation of its `UserRegister` body.  `emailOk` is the `EmailStr`
well-formedness check (third-party pydantic code, kept abstract as a
parameter); `salt` is the bcrypt salt drawn when hashing.  Validation failure
is a 400 `validationError`; an existing email is a 409 `emailTaken`
(`"Email already registered"`); otherwise the user is created with role
`viewer` and `is_verified=False` and its public view is returned. -/
def register (emailOk : String → Bool) (store : List User)
    (email username password : String) (salt : Nat) (now : Int) :
    Except RegisterError (UserResponse × List User) :=
  if ¬ (emailOk email && usernameOk username && passwordOk password) then
    .error .validationError
  else
    match get_user_by_email store email with
    | some _ => .error .emailTaken
    | none =>
      let created := create_user store email (pyStrip username) password Role.VIEWER false salt now
      .ok (toUserResponse created.1, created.2)

/-- The `login` endpoint from `backend/api/auth.py`: look up by email, verify
the password, check `is_active`, update `last_login`, and issue the
access/refresh pair bound to `{sub, email, role}` (refresh carries only
`sub`).  Returns the token pair and the updated store. -/
def login (store : List User) (email password : String) (now : Int) :
    Except HTTPErr (TokenPair × List User) :=
  match get_user_by_email store email with
  | none => .error invalidCredentialsErr
  | some user =>
    if ¬ user.verifyPassword password then .error invalidCredentialsErr
    else if ¬ user.is_active then .error inactiveAccountErr
    else
      let store := update_last_login store user.id now
      let token_data : Payload := ⟨some (toString user.id), some user.email, some user.role⟩
      .ok (⟨create_access_token token_data now none,
            create_refresh_token ⟨some (toString user.id), none, none⟩ now, "bearer"⟩, store)

/-- The `get_current_user` dependency from `backend/api/auth.py`: extract the
`sub` string from the token (decode + `sub`), reject a missing or empty
(Python-falsy) subject with 401, convert the string with `int(user_id)` —
which is not wrapped in any try/except, so a non-numeric subject escapes as
a `ValueError` — then look the user up and require an active account.  No
check of the token's `type` claim is performed. -/
def get_current_user (token : Token) (store : List User) (now : Int) :
    Except ApiFailure User :=
  match get_user_id_from_token token now with
  | none => .error (.http invalidAuthErr)
  | some user_id =>
    if user_id = "" then .error (.http invalidAuthErr)
    else
      match pyInt user_id with
      | none => .error (.valueError user_id)
      | some uid =>
        match get_user_by_int_id store uid with
        | none => .error (.http userNotFoundAuthErr)
        | some user =>
          if ¬ user.is_active then .error (.http inactiveUserErr)
          else .ok user

/-- The `refresh_token` endpoint from `backend/api/auth.py`: decode the
presented token, require `type == "refresh"`, require a non-missing,
non-empty (Python-falsy check) `sub` claim, convert it with `int(user_id)` —
uncaught `ValueError` on a non-numeric subject —, resolve the user, require
an active account, and issue a fresh rotated pair. -/
def refresh_token (store : List User) (token : Token) (now : Int) :
    Except ApiFailure TokenPair :=
  match decode_token token now with
  | none => .error (.http invalidRefreshErr)
  | some payload =>
    if payload.typ ≠ "refresh" then .error (.http invalidTypeErr)
    else
      match payload.payload.sub with
      | none => .error (.http invalidPayloadErr)
      | some user_id =>
        if user_id = "" then .error (.http invalidPayloadErr)
        else
          match pyInt user_id with
          | none => .error (.valueError user_id)
          | some uid =>
            match get_user_by_int_id store uid with
            | none => .error (.http userNotFoundAuthErr)
            | some user =>
              if ¬ user.is_active then .error (.http inactiveUserErr)
              else
                .ok ⟨create_access_token
                      ⟨some (toString user.id), some user.email, some user.role⟩ now none,
                     create_refresh_token ⟨some (toString user.id), none, none⟩ now, "bearer"⟩

/-- The `deactivate_user` endpoint from `backend/api/auth.py` (the caller has
already passed `require_role(Role.ADMIN)`): self-deactivation is rejected
before anything else, then an unresolvable target is a 404, otherwise the
target row is soft-deleted.  Returns the error raised (if any) together with
the store after the request, mirroring that `HTTPException` is raised before
any mutation. -/
def deactivate_user (store : List User) (admin : User) (target_id : Nat) :
    Option HTTPErr × List User :=
  if target_id = admin.id then (some selfDeactivationErr, store)
  else
    match get_user_by_id store target_id with
    | none => (some userNotFoundErr, store)
    | some _ => (none, set_inactive store target_id)

/-! Classifiers on keyword arguments, and concrete sample data used to
instantiate the theorems below. -/

/-- The keyword argument names the `hashed_password` attribute. -/
def isHashedPasswordAssign : FieldAssign → Bool
  | .hashedPassword _ => true
  | _ => false

/-- The keyword argument names the `id` attribute. -/
def isIdAssign : FieldAssign → Bool
  | .uid _ => true
  | _ => false

/-- A sample active user row. -/
def alice : User :=
  { id := 1, email := "alice@example.com", username := "Alice",
    hashed_password := hash_password "Str0ng!Pass" 0, role := Role.VIEWER,
    is_active := true, is_verified := false, created_at := 0,
    last_login := none, api_key := none }

/-- A token forged with a key that is not the server's signing secret. -/
def forgedTok : Token :=
  { payload := ⟨some "1", none, none⟩, exp := 1000000000, iat := 0,
    typ := "refresh", signKey := "attacker-key" }

/-- A token correctly signed and unexpired, of refresh type, whose `sub`
claim is a non-numeric string. -/
def badSubTok : Token :=
  { payload := ⟨some "abc", none, none⟩, exp := 1000000000, iat := 0,
    typ := "refresh", signKey := SECRET_KEY }

/-! Theorems. -/

/-- A role string is valid exactly when it is one of the four role
constants. -/
theorem is_valid_role_iff (r : String) :
    Role.is_valid_role r = true ↔ r ∈ Role.all_roles := by
  by_cases h0 : r = "viewer"
  · subst h0; decide
  by_cases h1 : r = "analyst"
  · subst h1; decide
  by_cases h2 : r = "cfo"
  · subst h2; decide
  by_cases h3 : r = "admin"
  · subst h3; decide
  have e0 : (r == "viewer") = false := beq_eq_false_iff_ne.mpr h0
  have e1 : (r == "analyst") = false := beq_eq_false_iff_ne.mpr h1
  have e2 : (r == "cfo") = false := beq_eq_false_iff_ne.mpr h2
  have e3 : (r == "admin") = false := beq_eq_false_iff_ne.mpr h3
  simp [Role.is_valid_role, Role.ROLE_HIERARCHY, Role.all_roles, Role.VIEWER,
    Role.ANALYST, Role.CFO, Role.ADMIN, List.lookup, e0, e1, e2, e3, h0, h1, h2, h3]

/-- C1: for the 16 ordered pairs of role strings drawn from
{viewer, analyst, cfo, admin}, `has_permission` returns true exactly when
the user role's rank under viewer(0) < analyst(1) < cfo(2) < admin(3) is at
least the required role's rank; and whenever either argument is not one of
those four exact strings, `has_permission` returns false. -/
theorem has_permission_spec :
    (∀ r1 ∈ Role.all_roles, ∀ r2 ∈ Role.all_roles,
      (has_permission r1 r2 = true ↔ roleLevel r1 ≥ roleLevel r2)) ∧
    (∀ r1 r2 : String, r1 ∉ Role.all_roles ∨ r2 ∉ Role.all_roles →
      has_permission r1 r2 = false) := by
  constructor
  · intro r1 h1 r2 h2
    fin_cases h1 <;> fin_cases h2 <;> decide
  · intro r1 r2 h
    rcases h with h | h
    · have hv : Role.is_valid_role r1 = false := by
        rw [← Bool.not_eq_true, is_valid_role_iff]; exact h
      simp [has_permission, hv]
    · have hv : Role.is_valid_role r2 = false := by
        rw [← Bool.not_eq_true, is_valid_role_iff]; exact h
      simp [has_permission, hv]

/-- Witness for C1: `has_permission("admin","viewer")` is true and an unknown
role string fails the permission check. -/
theorem has_permission_spec_witness :
    has_permission "admin" "viewer" = true ∧
    has_permission "boss" "viewer" = false :=
  ⟨(has_permission_spec.1 "admin" (by decide) "viewer" (by decide)).mpr (by decide),
   has_permission_spec.2 "boss" "viewer" (Or.inl (by decide))⟩

/-- C10: a password verifies against its own hash, and hashing the same
plaintext with two distinct fresh salts yields different hashes, both of
which still verify. -/
theorem hash_verify_roundtrip (P : String) (s1 s2 : Nat) (hs : s1 ≠ s2) :
    verify_password P (hash_password P s1) = true ∧
    verify_password P (hash_password P s2) = true ∧
    hash_password P s1 ≠ hash_password P s2 := by
  refine ⟨?_, ?_, ?_⟩
  · simp [verify_password, hash_password]
  · simp [verify_password, hash_password]
  · intro h
    exact hs (congrArg BcryptHash.salt h)

/-- Witness for C10: a concrete password hashed with salts 0 and 1. -/
theorem hash_verify_roundtrip_witness :
    verify_password "MySecurePassword123!" (hash_password "MySecurePassword123!" 0) = true ∧
    verify_password "MySecurePassword123!" (hash_password "MySecurePassword123!" 1) = true ∧
    hash_password "MySecurePassword123!" 0 ≠ hash_password "MySecurePassword123!" 1 :=
  hash_verify_roundtrip "MySecurePassword123!" 0 1 (by decide)

/-- C2: a token issued by `create_access_token` (default 30-minute TTL) or
`create_refresh_token` (7-day TTL) decodes successfully at every time before
its embedded `exp = issue time + TTL`, and `decode_token` returns `none` at
or after `exp` — for any token whatsoever, hence regardless of signature
correctness. -/
theorem token_expiry_spec (data : Payload) (t0 t : Int) :
    (t < t0 + accessTTL →
      decode_token (create_access_token data t0 none) t =
        some ⟨data, t0 + accessTTL, t0, "access"⟩) ∧
    (t0 + accessTTL ≤ t → decode_token (create_access_token data t0 none) t = none) ∧
    (t < t0 + refreshTTL →
      decode_token (create_refresh_token data t0) t =
        some ⟨data, t0 + refreshTTL, t0, "refresh"⟩) ∧
    (t0 + refreshTTL ≤ t → decode_token (create_refresh_token data t0) t = none) ∧
    (∀ token : Token, token.exp ≤ t → decode_token token t = none) := by
  refine ⟨?_, ?_, ?_, ?_, ?_⟩
  · intro h
    simp [decode_token, create_access_token, h]
  · intro h
    rw [decode_token, if_neg]
    rintro ⟨-, hlt⟩
    simp only [create_access_token] at hlt
    omega
  · intro h
    simp [decode_token, create_refresh_token, h]
  · intro h
    rw [decode_token, if_neg]
    rintro ⟨-, hlt⟩
    simp only [create_refresh_token] at hlt
    omega
  · intro token h
    rw [decode_token, if_neg]
    rintro ⟨-, hlt⟩
    omega

/-- Witness for C2: a concrete access token at 1799s and 1800s after issue,
and a concrete refresh token at 604799s and 604800s after issue. -/
theorem token_expiry_spec_witness :
    decode_token (create_access_token ⟨some "1", none, none⟩ 0 none) 1799 =
      some ⟨⟨some "1", none, none⟩, 0 + accessTTL, 0, "access"⟩ ∧
    decode_token (create_access_token ⟨some "1", none, none⟩ 0 none) 1800 = none ∧
    decode_token (create_refresh_token ⟨some "1", none, none⟩ 0) 604799 =
      some ⟨⟨some "1", none, none⟩, 0 + refreshTTL, 0, "refresh"⟩ ∧
    decode_token (create_refresh_token ⟨some "1", none, none⟩ 0) 604800 = none :=
  ⟨(token_expiry_spec ⟨some "1", none, none⟩ 0 1799).1 (by decide),
   (token_expiry_spec ⟨some "1", none, none⟩ 0 1800).2.1 (by decide),
   (token_expiry_spec ⟨some "1", none, none⟩ 0 604799).2.2.1 (by decide),
   (token_expiry_spec ⟨some "1", none, none⟩ 0 604800).2.2.2.1 (by decide)⟩

/-- The accumulated error list is empty exactly when all five strength rules
hold. -/
theorem violatedErrors_eq_nil_iff (p : String) :
    violatedErrors p = [] ↔ passwordRulesOk p = true := by
  have hd : decide (8 ≤ p.data.length) = !decide (p.data.length < 8) := by
    rw [decide_eq_decide.mpr (show (8 ≤ p.data.length) ↔ ¬ (p.data.length < 8) by omega),
      decide_not]
  unfold violatedErrors passwordRulesOk
  rw [hd]
  by_cases h1 : p.data.length < 8 <;> by_cases h2 : p.data.any Char.isUpper <;>
    by_cases h3 : p.data.any Char.isLower <;> by_cases h4 : p.data.any Char.isDigit <;>
    by_cases h5 : p.data.any (fun c => special_chars.data.contains c) <;>
    simp [h1, h2, h3, h4, h5]

/-- C5 counterexample: the empty password violates all five strength rules,
yet the returned message is the fixed string "Password cannot be empty",
which is not the report of the violated rules. -/
theorem validate_password_strength_empty_cex :
    (validate_password_strength "").1 = false ∧
    (validate_password_strength "").2 = "Password cannot be empty" ∧
    (validate_password_strength "").2 ≠
      String.intercalate "; " (violatedErrors "") := by
  refine ⟨rfl, rfl, by decide⟩

/-- C5 (amended): `validate_password_strength` returns valid exactly when all
five rules hold (length ≥ 8, an uppercase letter, a lowercase letter, a
digit, a special character); for every nonempty password its message is the
"; "-join of all violated rule messages (reporting every violated rule
together), or "Password is strong" when none is violated; the empty password
alone short-circuits to the fixed message "Password cannot be empty". -/
theorem validate_password_strength_spec (p : String) :
    ((validate_password_strength p).1 = true ↔ passwordRulesOk p = true) ∧
    (p ≠ "" →
      (validate_password_strength p).2 =
        (if violatedErrors p = [] then "Password is strong"
         else String.intercalate "; " (violatedErrors p))) ∧
    validate_password_strength "" = (false, "Password cannot be empty") := by
  refine ⟨?_, ?_, rfl⟩
  · by_cases hp : p = ""
    · subst hp; decide
    · by_cases he : violatedErrors p = []
      · simp [validate_password_strength, hp, he, (violatedErrors_eq_nil_iff p).mp he]
      · have hok : ¬ passwordRulesOk p = true :=
          fun hr => he ((violatedErrors_eq_nil_iff p).mpr hr)
        simp [validate_password_strength, hp, he, hok]
  · intro hp
    by_cases he : violatedErrors p = [] <;>
      simp [validate_password_strength, hp, he]

/-- Witness for C5 (amended): the weak password "short" is rejected and its
message is the join of all its violated rules. -/
theorem validate_password_strength_spec_witness :
    (validate_password_strength "short").1 = false ∧
    (validate_password_strength "short").2 =
      (if violatedErrors "short" = [] then "Password is strong"
       else String.intercalate "; " (violatedErrors "short")) :=
  ⟨by
    have h := (validate_password_strength_spec "short").1
    rw [← Bool.not_eq_true, h]
    decide,
   (validate_password_strength_spec "short").2.1 (by decide)⟩

/-- C3: with any store state, a login whose email resolves to no user and a
login whose email resolves to a user but whose password does not verify
produce the identical outward error (same status, same message): the
`invalidCredentialsErr` 401 "Incorrect email or password". -/
theorem login_uniform_invalid_credentials (store : List User) (e1 p1 e2 p2 : String)
    (now : Int) (h1 : get_user_by_email store e1 = none) (u : User)
    (h2 : get_user_by_email store e2 = some u)
    (h3 : u.verifyPassword p2 = false) :
    login store e1 p1 now = .error invalidCredentialsErr ∧
    login store e2 p2 now = .error invalidCredentialsErr := by
  constructor
  · unfold login; rw [h1]
  · unfold login; rw [h2]; simp [h3]

/-- Witness for C3: a nonexistent email and alice's email with a wrong
password yield the same error on a concrete one-user store. -/
theorem login_uniform_invalid_credentials_witness :
    login [alice] "bob@example.com" "AnyPass1!" 0 = .error invalidCredentialsErr ∧
    login [alice] "alice@example.com" "WrongPass1!" 0 = .error invalidCredentialsErr :=
  login_uniform_invalid_credentials [alice] "bob@example.com" "AnyPass1!"
    "alice@example.com" "WrongPass1!" 0 (by decide) alice (by decide) (by decide)

/-- Python's `int` rejects the empty string. -/
theorem pyInt_empty : pyInt "" = none := rfl

/-- C4: `get_current_user` accepts any token whose signature key matches,
whose expiry has not passed, and whose `sub` claim resolves (via `int()` and
an id lookup) to an active user — with no constraint on the token's `type`
claim, so a valid refresh token is accepted wherever an access token is
required. -/
theorem get_current_user_ignores_token_type (token : Token) (store : List User)
    (now : Int) (s : String) (uid : Int) (u : User)
    (hkey : token.signKey = SECRET_KEY) (hexp : now < token.exp)
    (hsub : token.payload.sub = some s) (hparse : pyInt s = some uid)
    (hu : get_user_by_int_id store uid = some u) (hact : u.is_active = true) :
    get_current_user token store now = .ok u := by
  have hdec : decode_token token now =
      some ⟨token.payload, token.exp, token.iat, token.typ⟩ := by
    simp [decode_token, hkey, hexp]
  have hne : s ≠ "" := by
    rintro rfl
    rw [pyInt_empty] at hparse
    cases hparse
  simp [get_current_user, get_user_id_from_token, hdec, hsub, hne, hparse, hu, hact]

/-- Witness for C4: a freshly issued refresh token (type "refresh") is
accepted by the access-token guard for the active user alice. -/
theorem get_current_user_ignores_token_type_witness :
    (create_refresh_token ⟨some "1", none, none⟩ 0).typ = "refresh" ∧
    get_current_user (create_refresh_token ⟨some "1", none, none⟩ 0) [alice] 1 =
      .ok alice :=
  ⟨rfl,
   get_current_user_ignores_token_type (create_refresh_token ⟨some "1", none, none⟩ 0)
     [alice] 1 "1" 1 alice rfl (by decide) rfl (by decide) (by decide) rfl⟩

/-- A keyword argument that does not name `hashed_password` leaves the hash
unchanged. -/
theorem setAttr_hashed_password (u : User) (a : FieldAssign)
    (h : isHashedPasswordAssign a = false) :
    (setAttr u a).hashed_password = u.hashed_password := by
  cases a <;> simp [setAttr, isHashedPasswordAssign] at *

/-- A keyword argument that does not name `id` leaves the id unchanged. -/
theorem setAttr_id (u : User) (a : FieldAssign) (h : isIdAssign a = false) :
    (setAttr u a).id = u.id := by
  cases a <;> simp [setAttr, isIdAssign] at *

/-- C6 counterexample: `UserCRUD.update_user` does mutate the password hash
and the id when keyword arguments of those names are supplied, since both
are attributes of the `User` model and the method sets every existing
attribute it is given. -/
theorem update_user_mutates_sensitive_cex :
    (update_user alice [.hashedPassword ⟨1, "evil"⟩]).hashed_password ≠
      alice.hashed_password ∧
    (update_user alice [.uid 999]).id ≠ alice.id := by
  decide

/-- C6 (amended): `update_user` sets exactly the supplied keyword arguments
that name existing `User` attributes — keywords naming no attribute are
ignored, and the hash and id are untouched whenever no supplied keyword
names `hashed_password` or `id` (as is the case for every call site in the
API layer, which passes only `username` and `role`); but a call that does
pass `hashed_password` or `id` mutates them. -/
theorem update_user_frame (u : User) (kwargs : List FieldAssign)
    (h : ∀ a ∈ kwargs, isHashedPasswordAssign a = false ∧ isIdAssign a = false) :
    (update_user u kwargs).hashed_password = u.hashed_password ∧
    (update_user u kwargs).id = u.id ∧
    (∀ name, update_user u [.unknownAttr name] = u) := by
  refine ⟨?_, ?_, fun _ => rfl⟩ <;> revert h
  · induction kwargs generalizing u with
    | nil => intro h; rfl
    | cons a rest ih =>
      intro h
      have ha := h a (List.mem_cons_self a rest)
      have hrest := fun b hb => h b (List.mem_cons_of_mem a hb)
      show (update_user (setAttr u a) rest).hashed_password = u.hashed_password
      rw [ih (setAttr u a) hrest, setAttr_hashed_password u a ha.1]
  · induction kwargs generalizing u with
    | nil => intro h; rfl
    | cons a rest ih =>
      intro h
      have ha := h a (List.mem_cons_self a rest)
      have hrest := fun b hb => h b (List.mem_cons_of_mem a hb)
      show (update_user (setAttr u a) rest).id = u.id
      rw [ih (setAttr u a) hrest, setAttr_id u a ha.2]

/-- Witness for C6 (amended): updating alice's username and role leaves her
hash and id unchanged. -/
theorem update_user_frame_witness :
    (update_user alice [.username "Alicia", .role "cfo"]).hashed_password =
      alice.hashed_password ∧
    (update_user alice [.username "Alicia", .role "cfo"]).id = alice.id ∧
    (∀ name, update_user alice [.unknownAttr name] = alice) :=
  update_user_frame alice [.username "Alicia", .role "cfo"] (by decide)

/-- Soft-deleting a target id rewrites exactly that row's `is_active` flag,
as seen through id lookup. -/
theorem get_user_by_id_set_inactive (store : List User) (target_id : Nat) :
    get_user_by_id (set_inactive store target_id) target_id =
      (get_user_by_id store target_id).map (fun u => { u with is_active := false }) := by
  induction store with
  | nil => rfl
  | cons u rest ih =>
    unfold set_inactive get_user_by_id at *
    simp only [List.map_cons, List.find?]
    by_cases h : u.id = target_id
    · simp [h]
    · simp only [if_neg h]
      rw [show (u.id == target_id) = false from beq_eq_false_iff_ne.mpr h]
      exact ih

/-- C7: for an admin caller present and active in the store, deactivating
the caller's own id fails with the self-deactivation error and leaves the
store unchanged (the target still resolves and is still active); an
unresolvable target id fails with the 404 user-not-found error; any other
resolvable target is soft-deleted (its `is_active` becomes false). -/
theorem deactivate_user_spec (store : List User) (admin : User) (target_id : Nat)
    (hadm : get_user_by_id store admin.id = some admin)
    (hact : admin.is_active = true) :
    (target_id = admin.id →
      deactivate_user store admin target_id = (some selfDeactivationErr, store) ∧
      get_user_by_id (deactivate_user store admin target_id).2 target_id = some admin ∧
      admin.is_active = true) ∧
    (target_id ≠ admin.id → get_user_by_id store target_id = none →
      deactivate_user store admin target_id = (some userNotFoundErr, store)) ∧
    (target_id ≠ admin.id → ∀ u, get_user_by_id store target_id = some u →
      deactivate_user store admin target_id = (none, set_inactive store target_id) ∧
      get_user_by_id (deactivate_user store admin target_id).2 target_id =
        some { u with is_active := false }) := by
  refine ⟨?_, ?_, ?_⟩
  · intro he
    subst he
    refine ⟨by simp [deactivate_user], ?_, hact⟩
    simp [deactivate_user, hadm]
  · intro hne hnone
    simp [deactivate_user, hne, hnone]
  · intro hne u hu
    constructor
    · simp [deactivate_user, hne, hu]
    · simp only [deactivate_user, if_neg hne, hu]
      rw [get_user_by_id_set_inactive, hu]
      rfl

/-- Witness for C7: alice (an active admin-side caller) deactivating her own
id gets the self-deactivation error, the store is untouched and she stays
active. -/
theorem deactivate_user_spec_witness :
    deactivate_user [alice] alice 1 = (some selfDeactivationErr, [alice]) ∧
    get_user_by_id (deactivate_user [alice] alice 1).2 1 = some alice ∧
    alice.is_active = true :=
  (deactivate_user_spec [alice] alice 1 (by decide) rfl).1 rfl

/-- C8 counterexample: failing tokens at the refresh endpoint draw different
client-visible outcomes — a token signed with the wrong key gets 401
"Invalid refresh token", a correctly signed unexpired token of the wrong
type gets 401 "Invalid token type", and a correctly signed unexpired
refresh-type token whose `sub` is the non-numeric string "abc" escapes as an
uncaught `ValueError` from `int()` (surfacing as a generic 500, not a 401) —
so the response does distinguish the cause. -/
theorem refresh_error_oracle_cex :
    refresh_token [] forgedTok 1 = .error (.http invalidRefreshErr) ∧
    refresh_token [] (create_access_token ⟨some "1", none, none⟩ 0 none) 1 =
      .error (.http invalidTypeErr) ∧
    invalidRefreshErr ≠ invalidTypeErr ∧
    refresh_token [] badSubTok 1 = .error (.valueError "abc") ∧
    get_current_user badSubTok [] 1 = .error (.valueError "abc") :=
  ⟨rfl, rfl, by decide, rfl, rfl⟩

/-- C8 (amended): every token failure that surfaces as an `HTTPException`
carries the same 401 status, and within a cause class the response is
uniform — expiry and bad signature are both "Invalid refresh token" at the
refresh endpoint, and every decode or missing-subject failure at the
access-token guard is "Invalid authentication credentials" — but the
refresh endpoint's detail strings do distinguish undecodable tokens from
wrong-type and from missing-subject tokens, and a correctly signed,
unexpired token of the right type whose nonempty `sub` does not parse as an
integer escapes both consumers as an uncaught `ValueError` (a generic 500,
not any 401). -/
theorem token_error_uniformity (store : List User) (token : Token) (now : Int) :
    (∀ e, refresh_token store token now = .error (.http e) → e.status_code = 401) ∧
    (∀ e, get_current_user token store now = .error (.http e) → e.status_code = 401) ∧
    ((token.signKey ≠ SECRET_KEY ∨ token.exp ≤ now) →
      refresh_token store token now = .error (.http invalidRefreshErr)) ∧
    ((decode_token token now = none ∨
        (∃ p, decode_token token now = some p ∧
          (p.payload.sub = none ∨ p.payload.sub = some ""))) →
      get_current_user token store now = .error (.http invalidAuthErr)) ∧
    (∀ s, token.signKey = SECRET_KEY → now < token.exp → token.typ = "refresh" →
      token.payload.sub = some s → s ≠ "" → pyInt s = none →
      refresh_token store token now = .error (.valueError s) ∧
      get_current_user token store now = .error (.valueError s)) := by
  have hdecnone : (token.signKey ≠ SECRET_KEY ∨ token.exp ≤ now) →
      decode_token token now = none := by
    intro h
    rw [decode_token, if_neg]
    rintro ⟨hk, hlt⟩
    rcases h with h | h
    · exact h hk
    · omega
  refine ⟨?_, ?_, ?_, ?_, ?_⟩
  · intro e he
    unfold refresh_token at he
    repeat' split at he
    all_goals first
      | (cases he; rfl)
      | simp_all [invalidRefreshErr, invalidTypeErr, invalidPayloadErr,
          userNotFoundAuthErr, inactiveUserErr]
  · intro e he
    unfold get_current_user at he
    repeat' split at he
    all_goals first
      | (cases he; rfl)
      | simp_all [invalidAuthErr, userNotFoundAuthErr, inactiveUserErr]
  · intro h
    unfold refresh_token
    rw [hdecnone h]
  · intro h
    rcases h with h | ⟨p, hp, hsub | hsub⟩ <;>
      simp [get_current_user, get_user_id_from_token, *]
  · intro s hkey hexp htyp hsub hne hparse
    have hdec : decode_token token now =
        some ⟨token.payload, token.exp, token.iat, token.typ⟩ := by
      simp [decode_token, hkey, hexp]
    constructor
    · simp [refresh_token, hdec, htyp, hsub, hne, hparse]
    · simp [get_current_user, get_user_id_from_token, hdec, hsub, hne, hparse]

/-- Witness for C8 (amended): a forged token and an expired genuine refresh
token are indistinguishable at the refresh endpoint, the forged token fails
the access-token guard with the guard's uniform message, and a
correctly-signed unexpired refresh token with `sub = "abc"` escapes both
consumers as a `ValueError`. -/
theorem token_error_uniformity_witness :
    refresh_token [] forgedTok 1 = .error (.http invalidRefreshErr) ∧
    refresh_token [] (create_refresh_token ⟨some "1", none, none⟩ 0) 604800 =
      .error (.http invalidRefreshErr) ∧
    get_current_user forgedTok [] 1 = .error (.http invalidAuthErr) ∧
    refresh_token [] badSubTok 1 = .error (.valueError "abc") ∧
    get_current_user badSubTok [] 1 = .error (.valueError "abc") :=
  ⟨(token_error_uniformity [] forgedTok 1).2.2.1 (Or.inl (by decide)),
   (token_error_uniformity [] (create_refresh_token ⟨some "1", none, none⟩ 0) 604800).2.2.1
     (Or.inr (by decide)),
   (token_error_uniformity [] forgedTok 1).2.2.2.1 (Or.inl (by decide)),
   ((token_error_uniformity [] badSubTok 1).2.2.2.2 "abc" rfl (by decide) rfl rfl
     (by decide) (by decide)).1,
   ((token_error_uniformity [] badSubTok 1).2.2.2.2 "abc" rfl (by decide) rfl rfl
     (by decide) (by decide)).2⟩

/-- C9: registration fails with a validation error unless the email is
well-formed (per the abstract `emailOk` check), the trimmed username has
length between 3 and 50, and the password passes the strength gate; it
fails `emailTaken` when a user with that email exists; on success the
created user has role `viewer` and `is_verified = false`, and the returned
`UserResponse` view is unchanged under any value of the password hash and
the API key (it contains neither). -/
theorem register_spec (emailOk : String → Bool) (store : List User)
    (email username password : String) (salt : Nat) (now : Int) :
    ((emailOk email && usernameOk username && passwordOk password) = false →
      register emailOk store email username password salt now =
        .error .validationError) ∧
    ((emailOk email && usernameOk username && passwordOk password) = true →
      (∀ u, get_user_by_email store email = some u →
        register emailOk store email username password salt now = .error .emailTaken) ∧
      (get_user_by_email store email = none →
        register emailOk store email username password salt now =
          .ok (toUserResponse
                (create_user store email (pyStrip username) password Role.VIEWER false salt now).1,
              (create_user store email (pyStrip username) password Role.VIEWER false salt now).2) ∧
        (create_user store email (pyStrip username) password Role.VIEWER false salt now).1.role =
          Role.VIEWER ∧
        (create_user store email (pyStrip username) password Role.VIEWER false salt
            now).1.is_verified = false)) ∧
    (∀ u : User, ∀ h k,
      toUserResponse { u with hashed_password := h, api_key := k } = toUserResponse u) := by
  refine ⟨?_, ?_, fun u h k => rfl⟩
  · intro hc
    simp [register, hc]
  · intro hc
    constructor
    · intro u hu
      simp [register, hc, hu]
    · intro hnone
      exact ⟨by simp [register, hc, hnone], rfl, rfl⟩

/-- Witness for C9: registering a well-formed request under an
already-registered email fails with `emailTaken`. -/
theorem register_spec_witness :
    register (fun _ => true) [alice] "alice@example.com" "Alice" "Str0ng!Pass" 0 0 =
      .error .emailTaken :=
  ((register_spec (fun _ => true) [alice] "alice@example.com" "Alice" "Str0ng!Pass"
      0 0).2.1 (by decide)).1 alice (by decide)

end FpnaCfo
